import Mathlib

/-! Verification of the pomotodo client library (src/session.rs, src/todo.rs).

The Rust code is shallowly embedded: Rust `String` becomes Lean `String`,
`Option` becomes `Option`, fallible calls return `Except`/`Outcome`, and the
HTTP transport (hyper client + TLS + body reading) is an oracle
`Net : Request → Except HyperError HttpResponse`.  A `.unwrap()` on a value
that can be absent is embedded as the `Outcome.crash` result (process abort).
JSON (de)serialization by the serde collaborator is embedded concretely for
serialization (field lists with `skip_serializing_if` semantics) and kept as a
decoder parameter where only its success or failure matters. -/

namespace Pomotodo

/-- Rendering of a Rust `bool` by `format!("{}", b)`. -/
def boolStr (b : Bool) : String := if b then "true" else "false"

/-- A UUID value, carried as the hyphenated text that its `Display`
implementation interpolates into URLs. -/
structure Uuid where
  s : String
deriving DecidableEq

/-- A `chrono::DateTime<Utc>` value, carried as the text that its
`Debug`/RFC3339 rendering produces when interpolated. -/
structure DateTimeUtc where
  s : String
deriving DecidableEq

/-- A flat JSON value, as serde_json serializes the fields of `Todo` and
`SubTodo` (whose field values are strings, booleans and unsigned integers). -/
inductive JsonAtom where
  | null
  | bool (b : Bool)
  | num (n : Nat)
  | str (s : String)
deriving DecidableEq

/-- Lower-case hex digit, as serde_json emits in `\u00XX` escapes. -/
def hexDigit (n : Nat) : Char :=
  if n < 10 then Char.ofNat ('0'.toNat + n) else Char.ofNat ('a'.toNat + n - 10)

/-- JSON string-literal escaping of one character (serde_json escapes the
quote, the backslash and all control characters). -/
def escJsonChar (c : Char) : List Char :=
  if c = '"' then ['\\', '"']
  else if c = '\\' then ['\\', '\\']
  else if c = '\n' then ['\\', 'n']
  else if c = '\t' then ['\\', 't']
  else if c = '\r' then ['\\', 'r']
  else if c.toNat = 8 then ['\\', 'b']
  else if c.toNat = 12 then ['\\', 'f']
  else if c.toNat < 32 then ['\\', 'u', '0', '0', hexDigit (c.toNat / 16), hexDigit (c.toNat % 16)]
  else [c]

/-- Rendering of one flat JSON value. -/
def renderAtom : JsonAtom → String
  | .null => "null"
  | .bool b => boolStr b
  | .num n => toString n
  | .str s => "\"" ++ String.mk (s.data.flatMap escJsonChar) ++ "\""

/-- Rendering of a JSON object from its field list, as
`serde_json::to_string` does (no whitespace, fields in order). -/
def renderFields (fs : List (String × JsonAtom)) : String :=
  "\x7b" ++ String.intercalate "," (fs.map (fun f => renderAtom (.str f.1) ++ ":" ++ renderAtom f.2)) ++ "\x7d"

/-- The `RepeatType` enumeration of src/todo.rs. -/
inductive RepeatType where
  | None
  | EachDay
  | EachWeek
  | EachTwoWeek
  | EachMonth
  | EachYear
deriving DecidableEq

/-- The `Display` implementation for `RepeatType` (src/todo.rs lines 190-202);
the serde `rename_all = "snake_case"` encoding coincides with it. -/
def RepeatType.toStr : RepeatType → String
  | .None => "none"
  | .EachDay => "each_day"
  | .EachWeek => "each_week"
  | .EachTwoWeek => "each_two_week"
  | .EachMonth => "each_month"
  | .EachYear => "each_year"

/-- The kind of a `std::io::Error`, restricted to what this library builds. -/
inductive IoErrorKind where
  | InvalidData
  | Other
deriving DecidableEq

/-- A `std::io::Error`: a kind together with its message. -/
structure IoError where
  kind : IoErrorKind
  msg : String
deriving DecidableEq

/-- The `FromStr` implementation for `RepeatType` (src/todo.rs lines 171-188);
the Rust `match` on `&str` is an equality chain. -/
def RepeatType.fromStr (s : String) : Except IoError RepeatType :=
  if s = "none" then .ok .None
  else if s = "each_day" then .ok .EachDay
  else if s = "each_week" then .ok .EachWeek
  else if s = "each_two_week" then .ok .EachTwoWeek
  else if s = "each_month" then .ok .EachMonth
  else if s = "each_year" then .ok .EachYear
  else .error ⟨.InvalidData, "invalid repeat type"⟩

/-- The `Todo` record of src/todo.rs (lines 34-73). -/
structure Todo where
  uuid : Option Uuid
  created_at : Option DateTimeUtc
  updated_at : Option DateTimeUtc
  description : String
  notice : Option String
  pin : Option Bool
  completed : Option Bool
  completed_at : Option DateTimeUtc
  repeat_type : Option RepeatType
  remind_time : Option DateTimeUtc
  estimated_pomo_count : Option Nat
  costed_pomo_count : Option Nat
  sub_todos : Option (List Uuid)
deriving DecidableEq

/-- The `SubTodo` record of src/todo.rs (lines 86-107). -/
structure SubTodo where
  uuid : Option Uuid
  parent_uuid : Option Uuid
  created_at : Option DateTimeUtc
  updated_at : Option DateTimeUtc
  description : String
  completed : Option Bool
  completed_at : Option DateTimeUtc
deriving DecidableEq

/-- The `Default` implementation for `Todo` (src/todo.rs lines 109-127). -/
def Todo.default : Todo :=
  { uuid := none
    created_at := none
    updated_at := none
    description := "New Todo Item via Rust client"
    notice := none
    pin := none
    completed := none
    completed_at := none
    repeat_type := none
    remind_time := none
    estimated_pomo_count := none
    costed_pomo_count := none
    sub_todos := none }

/-- The `Default` implementation for `SubTodo` (src/todo.rs lines 139-151). -/
def SubTodo.default : SubTodo :=
  { uuid := none
    parent_uuid := none
    created_at := none
    updated_at := none
    description := "New SubTodo Item via Rust client"
    completed := none
    completed_at := none }

/-- One optional serde field: `skip_serializing_if = "Option::is_none"`
contributes nothing when the option is empty. -/
def optField {α : Type} (name : String) (o : Option α) (f : α → JsonAtom) :
    List (String × JsonAtom) :=
  match o with
  | none => []
  | some v => [(name, f v)]

/-- The serde serialization of `Todo` as its JSON object field list, in
declaration order; `sub_todos` is `skip_serializing` and never appears. -/
def Todo.toJsonFields (t : Todo) : List (String × JsonAtom) :=
  optField "uuid" t.uuid (fun u => .str u.s) ++
  optField "created_at" t.created_at (fun d => .str d.s) ++
  optField "updated_at" t.updated_at (fun d => .str d.s) ++
  [("description", JsonAtom.str t.description)] ++
  optField "notice" t.notice (fun s => .str s) ++
  optField "pin" t.pin (fun b => .bool b) ++
  optField "completed" t.completed (fun b => .bool b) ++
  optField "completed_at" t.completed_at (fun d => .str d.s) ++
  optField "repeat_type" t.repeat_type (fun r => .str r.toStr) ++
  optField "remind_time" t.remind_time (fun d => .str d.s) ++
  optField "estimated_pomo_count" t.estimated_pomo_count (fun n => .num n) ++
  optField "costed_pomo_count" t.costed_pomo_count (fun n => .num n)

/-- The serde serialization of `SubTodo` as its JSON object field list. -/
def SubTodo.toJsonFields (st : SubTodo) : List (String × JsonAtom) :=
  optField "uuid" st.uuid (fun u => .str u.s) ++
  optField "parent_uuid" st.parent_uuid (fun u => .str u.s) ++
  optField "created_at" st.created_at (fun d => .str d.s) ++
  optField "updated_at" st.updated_at (fun d => .str d.s) ++
  [("description", JsonAtom.str st.description)] ++
  optField "completed" st.completed (fun b => .bool b) ++
  optField "completed_at" st.completed_at (fun d => .str d.s)

/-- `serde_json::to_string` on a `Todo`. -/
def Todo.serialize (t : Todo) : String := renderFields t.toJsonFields

/-- `serde_json::to_string` on a `SubTodo`. -/
def SubTodo.serialize (st : SubTodo) : String := renderFields st.toJsonFields

/-! Embedding of src/session.rs. -/

/-- Base URL constants of src/session.rs (lines 23-25). -/
def TODO_URL : String := "https://api.pomotodo.com/1/todos"

/-- Base URL for pomos. -/
def POMO_URL : String := "https://api.pomotodo.com/1/pomos"

/-- Base URL for the account endpoint. -/
def ACCOUNT_URL : String := "https://api.pomotodo.com/1/account"

/-- The HTTP methods this library selects. -/
inductive Method where
  | Get
  | Post
  | Patch
  | Delete
deriving DecidableEq

/-- One HTTP request as handed to the shared hyper client. -/
structure Request where
  method : Method
  url : String
  headers : List (String × String)
  body : Option String
deriving DecidableEq

/-- One HTTP response after its body has been read into memory. -/
structure HttpResponse where
  status : Nat
  body : String
deriving DecidableEq

/-- The `hyper::Error` values this library produces or propagates: an I/O
error wrapped by `Error::Io`, or the payload-free `Error::Status` variant. -/
inductive HyperError where
  | ioFail (e : IoError)
  | Status
deriving DecidableEq

/-- Result of one library call: a value, a `hyper::Error`, or a process
abort (a Rust panic from `.unwrap()` on a failed decode). -/
inductive Outcome (α : Type) where
  | ok (a : α)
  | err (e : HyperError)
  | crash
deriving DecidableEq

/-- The transport oracle: dispatching one request through the shared client,
including TLS, sending, and reading the response body to a string. -/
def Net : Type := Request → Except HyperError HttpResponse

/-- Modelled from the spec: src/account.rs is not under src/.  The spec
describes `Account` only as the read-only snapshot decoded from the account
endpoint's JSON body, so it is an opaque decoded record here; the serde
decoder for it stays a parameter of `withToken`. -/
structure Account where
  raw : String
deriving DecidableEq

/-- Modelled from the spec: src/pomo.rs is not under src/.  A `Pomo` is a
logged pomodoro interval whose field shape no claim inspects, so it is an
opaque decoded record here; its serde decoder stays a parameter. -/
structure Pomo where
  raw : String
deriving DecidableEq

/-- The `Session` of src/session.rs (lines 27-32): the token and the cached
account snapshot; the lock-protected client handle lives in the `Net`
oracle. -/
structure Session where
  token : String
  account : Option Account
deriving DecidableEq

/-- The `Authorization: token <token>` header set on every request. -/
def authHeader (token : String) : String × String :=
  ("Authorization", "token " ++ token)

/-- `Session::get_response` (src/session.rs lines 282-319): build headers,
add a JSON content type when a body is present, dispatch through the shared
client and read the body.  Returns the transport result and the dispatched
request (the trace). -/
def getResponse (token : String) (net : Net) (url : String) (method : Method)
    (body : Option String) : Except HyperError HttpResponse × List Request :=
  let headers := [authHeader token] ++
    (if body.isSome then [("Content-Type", "application/json")] else [])
  let req : Request := ⟨method, url, headers, body⟩
  (net req, [req])

/-- The GET issued by `Session::with_token` (src/session.rs lines 44-46). -/
def accountRequest (token : String) : Request :=
  ⟨.Get, ACCOUNT_URL, [authHeader token], none⟩

/-- `Session::with_token` (src/session.rs lines 35-64): GET the account
endpoint; on status 200 decode the body (`serde_json::from_str(..).unwrap()`,
a crash when decoding fails) and build the session; otherwise fail with
`Error::Status`. -/
def withToken (decodeAccount : String → Option Account) (net : Net)
    (token : String) : Outcome Session :=
  match net (accountRequest token) with
  | .error e => .err e
  | .ok resp =>
    if resp.status = 200 then
      match decodeAccount resp.body with
      | some acc => .ok ⟨token, some acc⟩
      | none => .crash
    else .err .Status

/-- `Session::get_account` (src/session.rs lines 66-68): clone the cached
snapshot.  Returns the value, the (empty) request trace, and the session
state after the call. -/
def getAccountCall (s : Session) : Option Account × List Request × Session :=
  (s.account, [], s)

/-- The response phase of `Session::get_pomo` (lines 81-87): on 200 decode
a `Vec<Pomo>` with `.unwrap()`, else `Error::Status`. -/
def getPomoHandle (decode : String → Option (List Pomo)) (resp : HttpResponse) :
    Outcome (List Pomo) :=
  if resp.status = 200 then
    match decode resp.body with
    | some v => .ok v
    | none => .crash
  else .err .Status

/-- The response phase of `Session::create_pomo` (lines 94-100): expects 201. -/
def createPomoHandle (decode : String → Option Pomo) (resp : HttpResponse) :
    Outcome Pomo :=
  if resp.status = 201 then
    match decode resp.body with
    | some v => .ok v
    | none => .crash
  else .err .Status

/-- The response phase of `Session::update_pomo` (lines 107-113): expects 200. -/
def updatePomoHandle (decode : String → Option Pomo) (resp : HttpResponse) :
    Outcome Pomo :=
  if resp.status = 200 then
    match decode resp.body with
    | some v => .ok v
    | none => .crash
  else .err .Status

/-- The response phase of `Session::delete_pomo` (lines 119-125): expects 204,
decodes nothing. -/
def deletePomoHandle (resp : HttpResponse) : Outcome Unit :=
  if resp.status = 204 then .ok () else .err .Status

/-- The response phase of `Session::get_todo` (lines 158-164): on 200 decode
a `Vec<Todo>` with `.unwrap()`, else `Error::Status`. -/
def getTodoHandle (decode : String → Option (List Todo)) (resp : HttpResponse) :
    Outcome (List Todo) :=
  if resp.status = 200 then
    match decode resp.body with
    | some v => .ok v
    | none => .crash
  else .err .Status

/-- The response phase of `Session::create_todo` (lines 172-178): expects 201. -/
def createTodoHandle (decode : String → Option Todo) (resp : HttpResponse) :
    Outcome Todo :=
  if resp.status = 201 then
    match decode resp.body with
    | some v => .ok v
    | none => .crash
  else .err .Status

/-- The response phase of `Session::update_todo` (lines 195-201): expects 200. -/
def updateTodoHandle (decode : String → Option Todo) (resp : HttpResponse) :
    Outcome Todo :=
  if resp.status = 200 then
    match decode resp.body with
    | some v => .ok v
    | none => .crash
  else .err .Status

/-- The response phase of `Session::delete_todo` (lines 207-213): expects 204. -/
def deleteTodoHandle (resp : HttpResponse) : Outcome Unit :=
  if resp.status = 204 then .ok () else .err .Status

/-- The response phase of `Session::update_subtodo` (lines 261-267): expects 200. -/
def updateSubTodoHandle (decode : String → Option SubTodo) (resp : HttpResponse) :
    Outcome SubTodo :=
  if resp.status = 200 then
    match decode resp.body with
    | some v => .ok v
    | none => .crash
  else .err .Status

/-- URL construction of `Session::get_pomo` (src/session.rs lines 75-79):
always both boolean flags; the identifier, when present, goes between the
base URL and the query. -/
def getPomoUrl (uuid : Option Uuid) (manual abandoned : Bool) : String :=
  let params := "manual=" ++ boolStr manual ++ "&abandoned=" ++ boolStr abandoned
  match uuid with
  | some u => POMO_URL ++ "/" ++ u.s ++ "?" ++ params
  | none => POMO_URL ++ "?" ++ params

/-- `Session::get_pomo` (lines 70-88), full call. -/
def getPomoCall (decode : String → Option (List Pomo)) (s : Session) (net : Net)
    (uuid : Option Uuid) (manual abandoned : Bool) :
    Outcome (List Pomo) × List Request :=
  let r := getResponse s.token net (getPomoUrl uuid manual abandoned) .Get none
  (match r.1 with
   | .error e => .err e
   | .ok resp => getPomoHandle decode resp, r.2)

/-- The PATCH body of `Session::update_pomo` (line 105):
`format!` interpolates the description with no escaping. -/
def updatePomoBody (description : String) : String :=
  "\x7b \"description\": \"" ++ description ++ "\"\x7d"

/-- `Session::update_pomo` (lines 103-114), full call. -/
def updatePomoCall (decode : String → Option Pomo) (s : Session) (net : Net)
    (uuid : Uuid) (description : String) : Outcome Pomo × List Request :=
  let url := POMO_URL ++ "/" ++ uuid.s
  let body := updatePomoBody description
  let r := getResponse s.token net url .Patch (some body)
  (match r.1 with
   | .error e => .err e
   | .ok resp => updatePomoHandle decode resp, r.2)

/-- `Session::delete_pomo` (lines 116-126), full call. -/
def deletePomoCall (s : Session) (net : Net) (uuid : Uuid) :
    Outcome Unit × List Request :=
  let url := POMO_URL ++ "/" ++ uuid.s
  let r := getResponse s.token net url .Delete none
  (match r.1 with
   | .error e => .err e
   | .ok resp => deletePomoHandle resp, r.2)

/-- URL construction of `Session::get_todo` (src/session.rs lines 134-156):
push `&name=value` for each supplied filter, then, when any was pushed,
replace the leading `&` by `?` and append to the path. -/
def getTodoUrl (uuid : Option Uuid) (completed : Option Bool)
    (completed_later_than completed_earlier_than : Option DateTimeUtc) : String :=
  let params :=
    (match completed with
     | some val => "&completed=" ++ boolStr val
     | none => "") ++
    (match completed_later_than with
     | some val => "&completed_later_than=" ++ val.s
     | none => "") ++
    (match completed_earlier_than with
     | some val => "&completed_earlier_than=" ++ val.s
     | none => "")
  let url := match uuid with
    | some u => TODO_URL ++ "/" ++ u.s
    | none => TODO_URL
  if params.isEmpty then url else url ++ "?" ++ params.drop 1

/-- `Session::get_todo` (lines 128-165), full call. -/
def getTodoCall (decode : String → Option (List Todo)) (s : Session) (net : Net)
    (uuid : Option Uuid) (completed : Option Bool)
    (completed_later_than completed_earlier_than : Option DateTimeUtc) :
    Outcome (List Todo) × List Request :=
  let r := getResponse s.token net
    (getTodoUrl uuid completed completed_later_than completed_earlier_than) .Get none
  (match r.1 with
   | .error e => .err e
   | .ok resp => getTodoHandle decode resp, r.2)

/-- The PATCH payload of `Session::update_todo` (lines 188-194): clone the
record, set the not-allowed fields `uuid`, `created_at`, `updated_at` to
`None`, and serialize the clone. -/
def updateTodoBodyFields (t : Todo) : List (String × JsonAtom) :=
  Todo.toJsonFields { t with uuid := none, created_at := none, updated_at := none }

/-- `Session::update_todo` (lines 181-202), full call.  Fails before any
dispatch when the record has no identifier.  The caller passes `&Todo`, so
the third component is the caller's record as it stands after the call (the
stripping happened on a local clone). -/
def updateTodoCall (decode : String → Option Todo) (s : Session) (net : Net)
    (t : Todo) : Outcome Todo × List Request × Todo :=
  match t.uuid with
  | none => (.err (.ioFail ⟨.InvalidData, "Uuid is null."⟩), [], t)
  | some id =>
    let url := TODO_URL ++ "/" ++ id.s
    let body := renderFields (updateTodoBodyFields t)
    let r := getResponse s.token net url .Patch (some body)
    (match r.1 with
     | .error e => .err e
     | .ok resp => updateTodoHandle decode resp, r.2, t)

/-- `Session::delete_todo` (lines 204-214), full call. -/
def deleteTodoCall (s : Session) (net : Net) (uuid : Uuid) :
    Outcome Unit × List Request :=
  let url := TODO_URL ++ "/" ++ uuid.s
  let r := getResponse s.token net url .Delete none
  (match r.1 with
   | .error e => .err e
   | .ok resp => deleteTodoHandle resp, r.2)

/-- The PATCH payload of `Session::update_subtodo` (lines 253-259). -/
def updateSubTodoBodyFields (st : SubTodo) : List (String × JsonAtom) :=
  SubTodo.toJsonFields { st with uuid := none, created_at := none, updated_at := none }

/-- `Session::update_subtodo` (lines 242-268), full call; analogous to
`updateTodoCall`, addressed under the parent identifier. -/
def updateSubTodoCall (decode : String → Option SubTodo) (s : Session) (net : Net)
    (parent_id : Uuid) (st : SubTodo) : Outcome SubTodo × List Request × SubTodo :=
  match st.uuid with
  | none => (.err (.ioFail ⟨.InvalidData, "Uuid is null."⟩), [], st)
  | some id =>
    let url := TODO_URL ++ "/" ++ parent_id.s ++ "/sub_todos/" ++ id.s
    let body := renderFields (updateSubTodoBodyFields st)
    let r := getResponse s.token net url .Patch (some body)
    (match r.1 with
     | .error e => .err e
     | .ok resp => updateSubTodoHandle decode resp, r.2, st)

/-! A checker for the JSON texts that denote an object with the single key
`description` and a string value, following the JSON grammar (RFC 8259):
optional whitespace, `{`, the key as a string literal, `:`, a string literal
value with escape decoding, `}`, end of input.  `parseDescObj s = some v`
holds exactly when `s` is such a text and the denoted value is `v`. -/

/-- JSON insignificant whitespace characters. -/
def isJsonWs (c : Char) : Bool :=
  c = ' ' || c = '\n' || c = '\t' || c = '\r'

/-- Skip leading JSON whitespace. -/
def skipWs : List Char → List Char
  | [] => []
  | c :: cs => if isJsonWs c then skipWs cs else c :: cs

/-- Value of a hexadecimal digit. -/
def hexVal (c : Char) : Option Nat :=
  if '0' ≤ c ∧ c ≤ '9' then some (c.toNat - '0'.toNat)
  else if 'a' ≤ c ∧ c ≤ 'f' then some (c.toNat - 'a'.toNat + 10)
  else if 'A' ≤ c ∧ c ≤ 'F' then some (c.toNat - 'A'.toNat + 10)
  else none

/-- Decoding of a one-character JSON escape. -/
def escCharOf (e : Char) : Option Char :=
  if e = '"' then some '"'
  else if e = '\\' then some '\\'
  else if e = '/' then some '/'
  else if e = 'b' then some (Char.ofNat 8)
  else if e = 'f' then some (Char.ofNat 12)
  else if e = 'n' then some '\n'
  else if e = 'r' then some '\r'
  else if e = 't' then some '\t'
  else none

/-- Scan the remainder of a JSON string literal (the opening quote already
consumed): decode escapes, reject unescaped control characters, stop at the
closing quote.  Returns the decoded content and the rest of the input. -/
def scanStr : List Char → Option (List Char × List Char)
  | [] => none
  | c :: rest =>
    if c = '"' then some ([], rest)
    else if c = '\\' then
      match rest with
      | [] => none
      | e :: rest2 =>
        if e = 'u' then
          match rest2 with
          | a :: b :: c2 :: d :: rest3 =>
            match hexVal a, hexVal b, hexVal c2, hexVal d with
            | some ha, some hb, some hc, some hd =>
              (scanStr rest3).map
                (fun p => (Char.ofNat (((ha * 16 + hb) * 16 + hc) * 16 + hd) :: p.1, p.2))
            | _, _, _, _ => none
          | _ => none
        else
          match escCharOf e with
          | some ec => (scanStr rest2).map (fun p => (ec :: p.1, p.2))
          | none => none
    else if c.toNat < 32 then none
    else (scanStr rest).map (fun p => (c :: p.1, p.2))

/-- Consume one expected character. -/
def expectChar (c : Char) : List Char → Option (List Char)
  | [] => none
  | x :: xs => if x = c then some xs else none

/-- Whether `s` is a valid JSON text denoting an object with the single key
`description` and a string value; returns the denoted string value. -/
def parseDescObj (s : String) : Option String :=
  (expectChar '\x7b' (skipWs s.data)).bind fun r1 =>
  (expectChar '"' (skipWs r1)).bind fun r2 =>
  (scanStr r2).bind fun kr =>
  if kr.1 = "description".data then
    (expectChar ':' (skipWs kr.2)).bind fun r4 =>
    (expectChar '"' (skipWs r4)).bind fun r5 =>
    (scanStr r5).bind fun vr =>
    (expectChar '\x7d' (skipWs vr.2)).bind fun r7 =>
    if skipWs r7 = [] then some (String.mk vr.1) else none
  else none

/-- A character that a JSON string literal may carry verbatim: not the
quote, not the backslash, not a control character. -/
def JsonSafeChar (c : Char) : Prop :=
  c ≠ '"' ∧ c ≠ '\\' ∧ 32 ≤ c.toNat

instance (c : Char) : Decidable (JsonSafeChar c) := by
  unfold JsonSafeChar; infer_instance

/-! Vocabulary for stating query-string properties: a query is a list of
`name=value` parameters joined by `&`. -/

/-- The parameter contributed by one optional filter: nothing when the
filter is unset. -/
def optParam {α : Type} (name : String) (o : Option α) (render : α → String) :
    List String :=
  match o with
  | none => []
  | some v => [name ++ "=" ++ render v]

/-- Join parameters with `&`. -/
def joinAmp : List String → String
  | [] => ""
  | [p] => p
  | p :: q :: ps => p ++ "&" ++ joinAmp (q :: ps)

/-! Theorems. -/

/-- The six canonical `RepeatType` encodings. -/
def repeatTypeCanonical : List String :=
  ["none", "each_day", "each_week", "each_two_week", "each_month", "each_year"]

/-- C4: for every `RepeatType` value, parsing its canonical rendering yields
the value back, and parsing any string outside the six canonical encodings
fails with the `InvalidData` error. -/
theorem repeatType_roundtrip_and_reject :
    (∀ v : RepeatType, RepeatType.fromStr v.toStr = .ok v) ∧
    (∀ s : String, s ∉ repeatTypeCanonical →
      RepeatType.fromStr s = .error ⟨.InvalidData, "invalid repeat type"⟩) := by
  constructor
  · intro v; cases v <;> rfl
  · intro s hs
    simp only [repeatTypeCanonical, List.mem_cons, List.not_mem_nil, or_false, not_or] at hs
    obtain ⟨h1, h2, h3, h4, h5, h6⟩ := hs
    simp [RepeatType.fromStr, h1, h2, h3, h4, h5, h6]

/-- Witness for C4 at the non-canonical string "weekly". -/
theorem repeatType_roundtrip_and_reject_witness :
    RepeatType.fromStr "weekly" = .error ⟨.InvalidData, "invalid repeat type"⟩ :=
  repeatType_roundtrip_and_reject.2 "weekly" (by decide)

/-- C8: the `get_pomo` URL always carries both boolean flags with the
caller-supplied values as its query string, and the identifier, when
supplied, sits between the pomos base URL and the query. -/
theorem getPomo_url_flags_and_path :
    ∀ (uuid : Option Uuid) (manual abandoned : Bool),
      getPomoUrl uuid manual abandoned =
        (match uuid with
         | some u => POMO_URL ++ "/" ++ u.s
         | none => POMO_URL) ++ "?" ++
        joinAmp (optParam "manual" (some manual) boolStr ++
          optParam "abandoned" (some abandoned) boolStr) := by
  intro uuid manual abandoned
  have h1 : ("&abandoned=" : String).data = '&' :: ("abandoned=" : String).data := rfl
  have h2 : ("&" : String).data = ['&'] := rfl
  cases uuid <;> refine String.ext ?_ <;>
    simp [getPomoUrl, optParam, joinAmp, h1, h2, String.data_append, List.append_assoc]

/-- C5: updating a `Todo` or `SubTodo` whose identifier is absent fails with
the pre-flight `InvalidData` validation error and dispatches no request. -/
theorem update_without_uuid_fails_preflight :
    ∀ (dec : String → Option Todo) (decs : String → Option SubTodo)
      (s : Session) (net : Net) (t : Todo) (pid : Uuid) (st : SubTodo),
      (t.uuid = none →
        updateTodoCall dec s net t =
          (.err (.ioFail ⟨.InvalidData, "Uuid is null."⟩), [], t)) ∧
      (st.uuid = none →
        updateSubTodoCall decs s net pid st =
          (.err (.ioFail ⟨.InvalidData, "Uuid is null."⟩), [], st)) := by
  intro dec decs s net t pid st
  constructor
  · intro h; simp [updateTodoCall, h]
  · intro h; simp [updateSubTodoCall, h]

/-- Witness for C5 on the default records, whose identifiers are absent. -/
theorem update_without_uuid_fails_preflight_witness :
    updateTodoCall (fun _ => Option.none) ⟨"tok", Option.none⟩
        (fun _ => .error .Status) Todo.default =
      (.err (.ioFail ⟨.InvalidData, "Uuid is null."⟩), [], Todo.default) ∧
    updateSubTodoCall (fun _ => Option.none) ⟨"tok", Option.none⟩
        (fun _ => .error .Status) ⟨"p"⟩ SubTodo.default =
      (.err (.ioFail ⟨.InvalidData, "Uuid is null."⟩), [], SubTodo.default) :=
  ⟨(update_without_uuid_fails_preflight (fun _ => Option.none) (fun _ => Option.none)
      ⟨"tok", Option.none⟩ (fun _ => .error .Status) Todo.default ⟨"p"⟩ SubTodo.default).1 rfl,
   (update_without_uuid_fails_preflight (fun _ => Option.none) (fun _ => Option.none)
      ⟨"tok", Option.none⟩ (fun _ => .error .Status) Todo.default ⟨"p"⟩ SubTodo.default).2 rfl⟩

/-- C9: the update operations never mutate the caller's record: after the
call the caller still sees the identifier and both timestamps it passed in
(the stripping happened on a local clone). -/
theorem update_preserves_caller_record :
    ∀ (dec : String → Option Todo) (decs : String → Option SubTodo)
      (s : Session) (net : Net) (t : Todo) (pid : Uuid) (st : SubTodo),
      ((updateTodoCall dec s net t).2.2.uuid = t.uuid ∧
       (updateTodoCall dec s net t).2.2.created_at = t.created_at ∧
       (updateTodoCall dec s net t).2.2.updated_at = t.updated_at) ∧
      ((updateSubTodoCall decs s net pid st).2.2.uuid = st.uuid ∧
       (updateSubTodoCall decs s net pid st).2.2.created_at = st.created_at ∧
       (updateSubTodoCall decs s net pid st).2.2.updated_at = st.updated_at) := by
  intro dec decs s net t pid st
  constructor
  · cases h : t.uuid <;> simp [updateTodoCall, h]
  · cases h : st.uuid <;> simp [updateSubTodoCall, h]

/-- C2 (code evaluation): when the response carries the expected 200 status
but the body fails to decode, `get_todo` and `get_pomo` abort the process
(the `.unwrap()` panic) instead of returning an error to the caller. -/
theorem decode_failure_aborts_process :
    ∀ (dts : String → Option (List Todo)) (dps : String → Option (List Pomo))
      (resp : HttpResponse),
      resp.status = 200 → dts resp.body = none → dps resp.body = none →
      getTodoHandle dts resp = .crash ∧ getPomoHandle dps resp = .crash := by
  intro dts dps resp h ht hp
  constructor <;> simp [getTodoHandle, getPomoHandle, h, ht, hp]

/-- Witness for C2 at a 200 response whose body the decoders reject. -/
theorem decode_failure_aborts_process_witness :
    getTodoHandle (fun _ => Option.none) ⟨200, "not json"⟩ = .crash ∧
    getPomoHandle (fun _ => Option.none) ⟨200, "not json"⟩ = .crash :=
  decode_failure_aborts_process (fun _ => Option.none) (fun _ => Option.none)
    ⟨200, "not json"⟩ rfl rfl rfl

/-- C3 counterexample: `delete_pomo` at an unexpected status fails with
hyper's payload-free `Error::Status`, so the error cannot carry the observed
status code: the error value produced at status 200 equals the one produced
at status 404, and no extraction function could read 200 off the one and 404
off the other. -/
theorem deletePomo_status_error_carries_no_code :
    deletePomoHandle ⟨200, ""⟩ = .err HyperError.Status ∧
    deletePomoHandle ⟨404, ""⟩ = .err HyperError.Status ∧
    ¬ ∃ codeOf : HyperError → Nat,
        (∀ e, deletePomoHandle ⟨200, ""⟩ = .err e → codeOf e = 200) ∧
        (∀ e, deletePomoHandle ⟨404, ""⟩ = .err e → codeOf e = 404) := by
  refine ⟨rfl, rfl, ?_⟩
  rintro ⟨codeOf, h200, h404⟩
  have a := h200 HyperError.Status rfl
  have b := h404 HyperError.Status rfl
  omega

/-- C3 as amended: every response whose status differs from the operation's
expected success code (list/get 200, create 201, update 200, delete 204)
makes the operation fail with `Error::Status` (which carries no code); in
particular `delete_pomo` at status 200 fails that way. -/
theorem mismatched_status_fails_with_status_error :
    ∀ (resp : HttpResponse) (dp : String → Option Pomo)
      (dps : String → Option (List Pomo)) (dt : String → Option Todo)
      (dts : String → Option (List Todo)) (dst : String → Option SubTodo),
      (resp.status ≠ 200 →
        getPomoHandle dps resp = .err .Status ∧
        getTodoHandle dts resp = .err .Status ∧
        updatePomoHandle dp resp = .err .Status ∧
        updateTodoHandle dt resp = .err .Status ∧
        updateSubTodoHandle dst resp = .err .Status) ∧
      (resp.status ≠ 201 →
        createPomoHandle dp resp = .err .Status ∧
        createTodoHandle dt resp = .err .Status) ∧
      (resp.status ≠ 204 →
        deletePomoHandle resp = .err .Status ∧
        deleteTodoHandle resp = .err .Status) ∧
      deletePomoHandle ⟨200, resp.body⟩ = .err .Status := by
  intro resp dp dps dt dts dst
  refine ⟨?_, ?_, ?_, rfl⟩ <;> intro h <;>
    simp [getPomoHandle, getTodoHandle, updatePomoHandle, updateTodoHandle,
      updateSubTodoHandle, createPomoHandle, createTodoHandle,
      deletePomoHandle, deleteTodoHandle, h]

/-- Witness for amended C3 at a 418 response. -/
theorem mismatched_status_fails_with_status_error_witness :
    getPomoHandle (fun _ => Option.none) ⟨418, ""⟩ = .err .Status ∧
    createTodoHandle (fun _ => Option.none) ⟨418, ""⟩ = .err .Status ∧
    deletePomoHandle ⟨418, ""⟩ = .err .Status :=
  ⟨((mismatched_status_fails_with_status_error ⟨418, ""⟩ (fun _ => Option.none)
      (fun _ => Option.none) (fun _ => Option.none) (fun _ => Option.none)
      (fun _ => Option.none)).1 (by decide)).1,
   ((mismatched_status_fails_with_status_error ⟨418, ""⟩ (fun _ => Option.none)
      (fun _ => Option.none) (fun _ => Option.none) (fun _ => Option.none)
      (fun _ => Option.none)).2.1 (by decide)).2,
   ((mismatched_status_fails_with_status_error ⟨418, ""⟩ (fun _ => Option.none)
      (fun _ => Option.none) (fun _ => Option.none) (fun _ => Option.none)
      (fun _ => Option.none)).2.2.1 (by decide)).1⟩

/-- Membership in the keys of one optional serde field. -/
theorem mem_map_fst_optField {α : Type} {x n : String} {o : Option α}
    {f : α → JsonAtom} :
    x ∈ (optField n o f).map Prod.fst ↔ x = n ∧ o.isSome := by
  cases o <;> simp [optField]

/-- C1: whatever the input records hold, the PATCH payloads serialized by
`update_todo` and `update_subtodo` contain none of the keys `uuid`,
`created_at`, `updated_at`. -/
theorem update_payload_omits_server_fields :
    ∀ (t : Todo) (st : SubTodo),
      ("uuid" ∉ (updateTodoBodyFields t).map Prod.fst ∧
       "created_at" ∉ (updateTodoBodyFields t).map Prod.fst ∧
       "updated_at" ∉ (updateTodoBodyFields t).map Prod.fst) ∧
      ("uuid" ∉ (updateSubTodoBodyFields st).map Prod.fst ∧
       "created_at" ∉ (updateSubTodoBodyFields st).map Prod.fst ∧
       "updated_at" ∉ (updateSubTodoBodyFields st).map Prod.fst) := by
  intro t st
  simp only [updateTodoBodyFields, updateSubTodoBodyFields, Todo.toJsonFields,
    SubTodo.toJsonFields, List.map_append, List.mem_append, mem_map_fst_optField,
    List.map_cons, List.map_nil, List.mem_singleton, not_or]
  simp

/-- C10: a successfully constructed session holds the `Account` decoded from
the 200 response that construction fetched; `get_account` returns exactly
that snapshot, dispatches no request, leaves the session unchanged, and a
repeated call returns the same value. -/
theorem getAccount_returns_construction_snapshot :
    ∀ (dec : String → Option Account) (net : Net) (token : String) (s : Session),
      withToken dec net token = .ok s →
      ∃ resp acc,
        net (accountRequest token) = .ok resp ∧ resp.status = 200 ∧
        dec resp.body = some acc ∧
        getAccountCall s = (some acc, [], s) ∧
        (getAccountCall ((getAccountCall s).2.2)).1 = (getAccountCall s).1 := by
  intro dec net token s h
  unfold withToken at h
  split at h
  next e heq => cases h
  next resp heq =>
    split at h
    next hst =>
      split at h
      next acc hdec =>
        cases h
        exact ⟨resp, acc, heq, hst, hdec, rfl, rfl⟩
      next hdec => cases h
    next hst => cases h

/-- A string with a nonempty character list is not empty. -/
theorem isEmpty_false_of_data_ne_nil {s : String} (h : s.data ≠ []) :
    s.isEmpty = false := by
  cases hs : s.isEmpty
  · rfl
  · have he := (String.isEmpty_iff s).mp hs
    subst he
    exact absurd rfl h

/-- A string with an empty character list is empty. -/
theorem isEmpty_true_of_data_nil {s : String} (h : s.data = []) :
    s.isEmpty = true := by
  have : s = "" := String.ext h
  subst this
  rfl

/-- C6: every filter left unset contributes no parameter at all to the
`get_todo` query string: the URL is the path followed, exactly when some
filter is set, by `?` and the parameters of the set filters joined by `&`;
in particular with only `completed=Some(true)` the query is exactly
`completed=true`. -/
theorem getTodo_query_omits_unset_filters :
    (∀ (uuid : Option Uuid) (c : Option Bool) (l e : Option DateTimeUtc),
      getTodoUrl uuid c l e =
        (match uuid with
         | some u => TODO_URL ++ "/" ++ u.s
         | none => TODO_URL) ++
        (if (optParam "completed" c boolStr ++
             optParam "completed_later_than" l DateTimeUtc.s ++
             optParam "completed_earlier_than" e DateTimeUtc.s) = [] then ""
         else "?" ++ joinAmp (optParam "completed" c boolStr ++
             optParam "completed_later_than" l DateTimeUtc.s ++
             optParam "completed_earlier_than" e DateTimeUtc.s))) ∧
    getTodoUrl none (some true) none none = TODO_URL ++ "?completed=true" := by
  have hC : ("&completed=" : String).data = '&' :: ("completed=" : String).data := rfl
  have hL : ("&completed_later_than=" : String).data =
      '&' :: ("completed_later_than=" : String).data := rfl
  have hE : ("&completed_earlier_than=" : String).data =
      '&' :: ("completed_earlier_than=" : String).data := rfl
  have hAmp : ("&" : String).data = ['&'] := rfl
  constructor
  · intro uuid c l e
    rcases c with _ | v <;> rcases l with _ | lv <;> rcases ev : e with _ | w <;>
      refine String.ext ?_ <;>
      simp [getTodoUrl, optParam, joinAmp, apply_ite String.data,
        isEmpty_false_of_data_ne_nil, isEmpty_true_of_data_nil,
        String.data_append, String.data_drop, hC, hL, hE, hAmp, List.append_assoc]
  · rfl

/-- Skipping whitespace leaves a non-whitespace head alone. -/
theorem skipWs_cons_false {c : Char} (h : isJsonWs c = false) (cs : List Char) :
    skipWs (c :: cs) = c :: cs := by simp [skipWs, h]

/-- Skipping whitespace consumes a whitespace head. -/
theorem skipWs_cons_true {c : Char} (h : isJsonWs c = true) (cs : List Char) :
    skipWs (c :: cs) = skipWs cs := by simp [skipWs, h]

/-- The expected character is consumed. -/
theorem expectChar_self (c : Char) (xs : List Char) :
    expectChar c (c :: xs) = some xs := by simp [expectChar]

/-- Scanning a string literal whose content needs no escaping stops at the
closing quote and returns the content verbatim. -/
theorem scanStr_safe (l r : List Char) (h : ∀ c ∈ l, JsonSafeChar c) :
    scanStr (l ++ '"' :: r) = some (l, r) := by
  induction l with
  | nil => rw [List.nil_append, scanStr.eq_def]; simp
  | cons c cs ih =>
    obtain ⟨h1, h2, h3⟩ := h c (by simp)
    have h3' : ¬ c.toNat < 32 := by omega
    rw [List.cons_append, scanStr.eq_def]
    simp only [if_neg h1, if_neg h2, if_neg h3']
    rw [ih (fun x hx => h x (by simp [hx]))]
    rfl

/-- The `update_pomo` body is the valid JSON rendering of the single-key
description object whenever the description needs no escaping. -/
theorem parseDescObj_updatePomoBody (d : String) (h : ∀ c ∈ d.data, JsonSafeChar c) :
    parseDescObj (updatePomoBody d) = some d := by
  have hdata : (updatePomoBody d).data =
      '\x7b' :: ' ' :: '"' ::
        ("description".data ++ ('"' :: ':' :: ' ' :: '"' :: (d.data ++ ['"', '\x7d']))) := by
    have hpre : ("\x7b \"description\": \"" : String).data =
        '\x7b' :: ' ' :: '"' :: ("description".data ++ ['"', ':', ' ', '"']) := rfl
    have hsuf : ("\"\x7d" : String).data = ['"', '\x7d'] := rfl
    simp only [updatePomoBody, String.data_append, hpre, hsuf, List.cons_append,
      List.append_assoc, List.nil_append]
  have hkey : scanStr ("description".data ++
      '"' :: (':' :: ' ' :: '"' :: (d.data ++ ['"', '\x7d']))) =
      some ("description".data, ':' :: ' ' :: '"' :: (d.data ++ ['"', '\x7d'])) :=
    scanStr_safe _ _ (by decide)
  have hval : scanStr (d.data ++ '"' :: ['\x7d']) = some (d.data, ['\x7d']) :=
    scanStr_safe _ _ h
  have hmk : String.mk d.data = d := rfl
  have wbrace := skipWs_cons_false (c := '\x7b') rfl
  have wspace := skipWs_cons_true (c := ' ') rfl
  have wquote := skipWs_cons_false (c := '"') rfl
  have wcolon := skipWs_cons_false (c := ':') rfl
  have wclose := skipWs_cons_false (c := '\x7d') rfl
  have wnil : skipWs [] = [] := rfl
  simp only [parseDescObj, hdata, wbrace, wspace, wquote, wcolon, wclose, wnil,
    expectChar_self, hkey, hval, Option.some_bind, eq_self_iff_true, if_true, hmk]

/-- C7 counterexample: for the description `say "hi"` the PATCH body built
by `update_pomo` is not a valid JSON object with the single key
`description` — the description is interpolated with no escaping — so the
claim fails for arbitrary description strings. -/
theorem updatePomo_body_invalid_on_quote :
    parseDescObj (updatePomoBody "say \"hi\"") = none := rfl

/-- C7 as amended: for every uuid and every description containing no
quote, backslash or control character, `update_pomo` dispatches exactly one
PATCH request to the pomo's URL whose body is a syntactically valid JSON
object with the single key `description` whose value equals the given
description. -/
theorem updatePomo_body_valid_for_safe_descriptions :
    ∀ (dec : String → Option Pomo) (s : Session) (net : Net) (u : Uuid) (d : String),
      (∀ c ∈ d.data, JsonSafeChar c) →
      (updatePomoCall dec s net u d).2 =
        [⟨.Patch, POMO_URL ++ "/" ++ u.s,
          [authHeader s.token, ("Content-Type", "application/json")],
          some (updatePomoBody d)⟩] ∧
      parseDescObj (updatePomoBody d) = some d := by
  intro dec s net u d h
  exact ⟨by simp [updatePomoCall, getResponse], parseDescObj_updatePomoBody d h⟩

/-- Witness for amended C7 at the description "Buy milk". -/
theorem updatePomo_body_valid_for_safe_descriptions_witness :
    (updatePomoCall (fun _ => Option.none) ⟨"tok", Option.none⟩
        (fun _ => .error .Status) ⟨"u1"⟩ "Buy milk").2 =
      [⟨.Patch, POMO_URL ++ "/" ++ "u1",
        [authHeader "tok", ("Content-Type", "application/json")],
        some (updatePomoBody "Buy milk")⟩] ∧
    parseDescObj (updatePomoBody "Buy milk") = some "Buy milk" :=
  updatePomo_body_valid_for_safe_descriptions (fun _ => Option.none)
    ⟨"tok", Option.none⟩ (fun _ => .error .Status) ⟨"u1"⟩ "Buy milk" (by decide)

/-- Witness for C10 against a stub transport returning a fixed 200 body. -/
theorem getAccount_returns_construction_snapshot_witness :
    ∃ resp acc,
      (fun _ : Request => (.ok ⟨200, "acct"⟩ : Except HyperError HttpResponse))
          (accountRequest "tok") = .ok resp ∧
      resp.status = 200 ∧
      (fun b : String => some (Account.mk b)) resp.body = some acc ∧
      getAccountCall ⟨"tok", some ⟨"acct"⟩⟩ = (some acc, [], ⟨"tok", some ⟨"acct"⟩⟩) ∧
      (getAccountCall ((getAccountCall ⟨"tok", some ⟨"acct"⟩⟩).2.2)).1 =
        (getAccountCall (⟨"tok", some ⟨"acct"⟩⟩ : Session)).1 :=
  getAccount_returns_construction_snapshot (fun b => some (Account.mk b))
    (fun _ => .ok ⟨200, "acct"⟩) "tok" ⟨"tok", some ⟨"acct"⟩⟩ rfl

end Pomotodo
